import Mathlib

/-!
# lua-leveldb: data operations of a database handle (`src/db.cc`)

A shallow embedding of `src/db.cc`.  Every C function of the file becomes a
function from the Lua state (the argument stack) and the native heap (the
objects light userdata point to) to an outcome: the values left for the host,
or a failure, together with the heap afterwards.

The LevelDB engine and the Lua C API are consumed by `db.cc` but defined
elsewhere; the parts that `db.cc` uses are modelled here next to the embedding,
each with a note saying where its behaviour is taken from.  Output on
`std::cerr` is not modelled: it is not observable by the host.
-/

set_option autoImplicit false

namespace LuaLevelDB

/-! ## Bytes -/

/-- One byte (`char`). -/
abbrev Byte := Fin 256

/-- A byte string with an explicit length: `leveldb::Slice`, `std::string`, a Lua string. -/
abbrev Bytes := List Byte

/-- The bytes of an ASCII literal of the source text. -/
def lit (s : String) : Bytes := s.toList.map (fun c => Fin.ofNat c.toNat)

/-- Order of `leveldb::BytewiseComparator`: `memcmp` on the common prefix, then the shorter first. -/
def bytesLt : Bytes → Bytes → Bool
  | [], [] => false
  | [], _ :: _ => true
  | _ :: _, [] => false
  | a :: as, b :: bs => if a < b then true else if b < a then false else bytesLt as bs

/-! ## The store (`leveldb::DB`), an external collaborator -/

/-- The type `leveldb::Status`: the code of the result of a store call. -/
inductive Status where
  | OK
  | NotFound
  | Corruption
  | NotSupported
  | InvalidArgument
  | IoError
  deriving DecidableEq, Repr

/-- Method `Status::ok()`. -/
def Status.ok : Status → Bool
  | Status.OK => true
  | _ => false

/-- The contents of a store, or of a view of it: entries in ascending key order. -/
abbrev Entries := List (Bytes × Bytes)

/-- Modelled from the spec: `leveldb::WriteOptions` (section 3, "Write: sync: bool
(default false)"); the type is declared by LevelDB, outside `src/`. -/
structure WriteOptions where
  sync : Bool := false
  deriving DecidableEq, Repr

/-- Modelled from the spec: `leveldb::ReadOptions` (section 3: verifyChecksums default
false, fillCache default true, snapshot default none, meaning the latest state).  The
snapshot pointer is represented by the immutable view it points to. -/
structure ReadOptions where
  verify_checksums : Bool := false
  fill_cache : Bool := true
  snapshot : Option Entries := none
  deriving DecidableEq, Repr

/-- One operation of a `leveldb::WriteBatch`. -/
inductive BatchOp where
  | put (key value : Bytes)
  | delete (key : Bytes)
  deriving DecidableEq, Repr

/-- Modelled from the spec: `leveldb::WriteBatch` (section 3, "an ordered sequence of
Put(key,value) | Delete(key) operations"), in insertion order. -/
abbrev WriteBatch := List BatchOp

/-- Value stored under `k`, if any. -/
def Entries.lookup : Entries → Bytes → Option Bytes
  | [], _ => none
  | (k', v') :: es, k => if k' = k then some v' else Entries.lookup es k

/-- Store `v` under `k`, keeping the key order and replacing an entry with the same key. -/
def Entries.insert : Entries → Bytes → Bytes → Entries
  | [], k, v => [(k, v)]
  | (k', v') :: es, k, v =>
    if k' = k then (k, v) :: es
    else if bytesLt k k' then (k, v) :: (k', v') :: es
    else (k', v') :: Entries.insert es k v

/-- Remove the entry of `k`, if any. -/
def Entries.erase : Entries → Bytes → Entries
  | [], _ => []
  | (k', v') :: es, k => if k' = k then Entries.erase es k else (k', v') :: Entries.erase es k

/-- Effect of one batch operation on the contents. -/
def Entries.apply (es : Entries) : BatchOp → Entries
  | BatchOp.put k v => es.insert k v
  | BatchOp.delete k => es.erase k

/-- Modelled from the spec: the `Store` capability of section 1 (`leveldb::DB`, an
external collaborator).  `entries` is the latest state.  `fault` is the failure the
engine is reporting (I/O, corruption, ...: section 7, StorageError); `Status.OK` means
the engine is working, and then calls behave as LevelDB documents them. -/
structure DB where
  entries : Entries
  fault : Status := Status.OK
  deriving DecidableEq, Repr

/-- Modelled from the spec: `DB::Put(options, key, value)`, "writes key→value"; a
failing engine reports its failure and stores nothing. -/
def DB.Put (d : DB) (_o : WriteOptions) (key value : Bytes) : Status × DB :=
  if d.fault.ok then (Status.OK, { d with entries := d.entries.insert key value })
  else (d.fault, d)

/-- Modelled from the spec: `DB::Delete(options, key)`, "tombstones the key"; deleting
an absent key succeeds. -/
def DB.Delete (d : DB) (_o : WriteOptions) (key : Bytes) : Status × DB :=
  if d.fault.ok then (Status.OK, { d with entries := d.entries.erase key })
  else (d.fault, d)

/-- The state a read with options `o` observes: the snapshot of the options when there
is one, the latest state otherwise (section 3). -/
def DB.view (d : DB) (o : ReadOptions) : Entries :=
  match o.snapshot with
  | some s => s
  | none => d.entries

/-- Modelled from the spec: `DB::Get(options, key, &value)`.  Gives the status and the
contents of `value` afterwards (left as it was unless the key is found). -/
def DB.Get (d : DB) (o : ReadOptions) (key : Bytes) (value : Bytes) : Status × Bytes :=
  if d.fault.ok then
    match (d.view o).lookup key with
    | some v => (Status.OK, v)
    | none => (Status.NotFound, value)
  else (d.fault, value)

/-- Modelled from the spec: `DB::Write(options, &batch)`, "applies all operations in
batch atomically", in insertion order (section 3); a failing engine applies none. -/
def DB.Write (d : DB) (_o : WriteOptions) (batch : WriteBatch) : Status × DB :=
  if d.fault.ok then (Status.OK, { d with entries := batch.foldl Entries.apply d.entries })
  else (d.fault, d)

/-- Modelled from the spec: `DB::GetSnapshot()`, "captures current visible state". -/
def DB.GetSnapshot (d : DB) : Entries := d.entries

/-- Modelled from the spec: `leveldb::Iterator` (section 4.5): a cursor over a view in
key order.  `pos = none` is the unpositioned or invalid state. -/
structure Iterator where
  entries : Entries
  pos : Option Nat := none
  st : Status := Status.OK
  deriving DecidableEq, Repr

/-- Modelled from the spec: `DB::NewIterator(options)`; a failing engine hands out an
iterator that is never valid and carries the failure as its status. -/
def DB.NewIterator (d : DB) (o : ReadOptions) : Iterator :=
  if d.fault.ok then { entries := d.view o } else { entries := [], st := d.fault }

/-- Method `Iterator::Valid()`. -/
def Iterator.Valid (it : Iterator) : Bool :=
  match it.pos with
  | some n => decide (n < it.entries.length)
  | none => false

/-- Method `Iterator::SeekToFirst()`. -/
def Iterator.SeekToFirst (it : Iterator) : Iterator :=
  { it with pos := if it.entries.length = 0 then none else some 0 }

/-- Method `Iterator::SeekToLast()`. -/
def Iterator.SeekToLast (it : Iterator) : Iterator :=
  { it with pos := if it.entries.length = 0 then none else some (it.entries.length - 1) }

/-- Method `Iterator::Next()`. -/
def Iterator.Next (it : Iterator) : Iterator :=
  match it.pos with
  | some n => { it with pos := if n + 1 < it.entries.length then some (n + 1) else none }
  | none => it

/-- Method `Iterator::Prev()`. -/
def Iterator.Prev (it : Iterator) : Iterator :=
  match it.pos with
  | some (n + 1) => { it with pos := some n }
  | _ => { it with pos := none }

/-- Method `Iterator::key()`; only meaningful when `Valid()`. -/
def Iterator.key (it : Iterator) : Bytes :=
  match it.pos with
  | some n => (it.entries.getD n ([], [])).1
  | none => []

/-- Method `Iterator::value()`; only meaningful when `Valid()`. -/
def Iterator.value (it : Iterator) : Bytes :=
  match it.pos with
  | some n => (it.entries.getD n ([], [])).2
  | none => []

/-- Method `Iterator::status()`. -/
def Iterator.status (it : Iterator) : Status := it.st

/-! ## The native heap -/

/-- An object behind a pointer handed to Lua. -/
inductive Obj where
  | db (d : DB)
  | iter (it : Iterator)
  | snapshot (s : Entries)
  | batch (b : WriteBatch)
  deriving DecidableEq, Repr

/-- The native heap: which object lives at which address.  Address 0 is `NULL`. -/
abbrev Heap := List (Nat × Obj)

/-- The null pointer. -/
def NULL : Nat := 0

/-- Dereference a pointer. -/
def Heap.get : Heap → Nat → Option Obj
  | [], _ => none
  | (q, o) :: H, p => if q = p then some o else Heap.get H p

/-- Store through a pointer (in-place mutation of the pointee). -/
def Heap.set : Heap → Nat → Obj → Heap
  | [], _, _ => []
  | (q, o') :: H, p, o => if q = p then (q, o) :: H else (q, o') :: Heap.set H p o

/-- An address above every address in use. -/
def Heap.fresh (H : Heap) : Nat := (H.map Prod.fst).foldr max 0 + 1

/-- Place a new object at a fresh address. -/
def Heap.alloc (H : Heap) (o : Obj) : Nat × Heap := (H.fresh, H ++ [(H.fresh, o)])

/-! ## The Lua state and the part of the Lua C API used by `db.cc` -/

/-- The type tags of Lua values (`lua.h`). -/
inductive LuaType where
  | LUA_TNONE
  | LUA_TNIL
  | LUA_TBOOLEAN
  | LUA_TLIGHTUSERDATA
  | LUA_TNUMBER
  | LUA_TSTRING
  | LUA_TTABLE
  | LUA_TFUNCTION
  | LUA_TUSERDATA
  | LUA_TTHREAD
  deriving DecidableEq, Repr

/-- The value of a field of an options table, as far as the option translator reads it. -/
inductive FieldValue where
  | boolean (b : Bool)
  | lightuserdata (p : Nat)
  | other
  deriving DecidableEq, Repr

/-- A Lua value.  `metatable name` is the table registered under `name`. -/
inductive LuaValue where
  | nil
  | boolean (b : Bool)
  | lightuserdata (p : Nat)
  | number (n : Int)
  | string (s : Bytes)
  | table (fields : List (String × FieldValue))
  | metatable (name : String)
  | function (id : Nat)
  | userdata (mt : String) (p : Nat)
  | thread (id : Nat)
  deriving DecidableEq, Repr

/-- Type tag of a value. -/
def LuaValue.type : LuaValue → LuaType
  | LuaValue.nil => LuaType.LUA_TNIL
  | LuaValue.boolean _ => LuaType.LUA_TBOOLEAN
  | LuaValue.lightuserdata _ => LuaType.LUA_TLIGHTUSERDATA
  | LuaValue.number _ => LuaType.LUA_TNUMBER
  | LuaValue.string _ => LuaType.LUA_TSTRING
  | LuaValue.table _ => LuaType.LUA_TTABLE
  | LuaValue.metatable _ => LuaType.LUA_TTABLE
  | LuaValue.function _ => LuaType.LUA_TFUNCTION
  | LuaValue.userdata _ _ => LuaType.LUA_TUSERDATA
  | LuaValue.thread _ => LuaType.LUA_TTHREAD

/-- Lua API `lua_typename`. -/
def lua_typename : LuaType → String
  | LuaType.LUA_TNONE => "no value"
  | LuaType.LUA_TNIL => "nil"
  | LuaType.LUA_TBOOLEAN => "boolean"
  | LuaType.LUA_TLIGHTUSERDATA => "userdata"
  | LuaType.LUA_TNUMBER => "number"
  | LuaType.LUA_TSTRING => "string"
  | LuaType.LUA_TTABLE => "table"
  | LuaType.LUA_TFUNCTION => "function"
  | LuaType.LUA_TUSERDATA => "userdata"
  | LuaType.LUA_TTHREAD => "thread"

/-- The Lua state seen by a C function: its stack frame (index 1 first, top last) and
the metatable shared by all light userdata. -/
structure lua_State where
  stack : List LuaValue
  lightMeta : Option String := none
  deriving DecidableEq, Repr

/-- How a call ends other than by returning. -/
inductive Failure where
  /-- A Lua error raised by `luaL_argerror` (bad argument): the call fails in the host. -/
  | argError (arg : Int) (msg : String)
  /-- An `assert` failed: the process aborts. -/
  | assertion (expr : String)
  /-- A member call through a pointer that does not point to such an object. -/
  | undefined
  deriving DecidableEq, Repr

/-- The failure is a type error raised to the host. -/
def Failure.isTypeError : Failure → Bool
  | Failure.argError _ _ => true
  | _ => false

/-- Value at an acceptable index: positive from the bottom, negative from the top. -/
def index2value (L : lua_State) (idx : Int) : Option LuaValue :=
  if 0 < idx then L.stack.get? (idx.toNat - 1)
  else if idx < 0 ∧ idx.natAbs ≤ L.stack.length then L.stack.get? (L.stack.length - idx.natAbs)
  else none

/-- Lua API `lua_gettop`. -/
def lua_gettop (L : lua_State) : Int := L.stack.length

/-- Lua API `lua_type`. -/
def lua_type (L : lua_State) (idx : Int) : LuaType :=
  match index2value L idx with
  | some v => v.type
  | none => LuaType.LUA_TNONE

/-- Lua API `lua_touserdata`: the block address of a full userdata, the pointer of a light
userdata, `NULL` otherwise. -/
def lua_touserdata (L : lua_State) (idx : Int) : Nat :=
  match index2value L idx with
  | some (LuaValue.lightuserdata p) => p
  | some (LuaValue.userdata _ p) => p
  | _ => NULL

/-- Lua API `lua_islightuserdata`. -/
def lua_islightuserdata (L : lua_State) (idx : Int) : Bool :=
  lua_type L idx == LuaType.LUA_TLIGHTUSERDATA

/-- Lua API `luaL_checktype`: raises a type error unless the argument has type `t`. -/
def luaL_checktype (L : lua_State) (arg : Int) (t : LuaType) : Except Failure Unit :=
  if lua_type L arg != t then
    Except.error (Failure.argError arg
      (lua_typename t ++ " expected, got " ++ lua_typename (lua_type L arg)))
  else Except.ok ()

/-- Lua API `luaL_argcheck`: raises a bad-argument error unless `cond` holds. -/
def luaL_argcheck (cond : Bool) (arg : Int) (extramsg : String) : Except Failure Unit :=
  if cond then Except.ok () else Except.error (Failure.argError arg extramsg)

/-- Push one value. -/
def lua_push (L : lua_State) (v : LuaValue) : lua_State := { L with stack := L.stack ++ [v] }

/-- Lua API `lua_pushboolean`. -/
def lua_pushboolean (L : lua_State) (b : Bool) : lua_State := lua_push L (LuaValue.boolean b)

/-- Lua API `lua_pushlightuserdata`. -/
def lua_pushlightuserdata (L : lua_State) (p : Nat) : lua_State :=
  lua_push L (LuaValue.lightuserdata p)

/-- Lua API `lua_pushlstring`: pushes exactly the given bytes. -/
def lua_pushlstring (L : lua_State) (s : Bytes) : lua_State := lua_push L (LuaValue.string s)

/-- Lua API `lua_pushstring(L, p)` where `p` points to the bytes `s` followed by the terminating
zero: the string pushed ends before the first zero byte (`strlen`). -/
def lua_pushstring (L : lua_State) (s : Bytes) : lua_State :=
  lua_push L (LuaValue.string (s.takeWhile (fun b => b != 0)))

/-- Lua API `luaL_getmetatable`: pushes the metatable registered under `name` (registered when
the module is loaded, outside `db.cc`). -/
def luaL_getmetatable (L : lua_State) (name : String) : lua_State :=
  lua_push L (LuaValue.metatable name)

/-- Lua API `lua_setmetatable`: pops a table or nil and makes it the metatable of the value at
`idx`; for a light userdata that is the metatable of all light userdata. -/
def lua_setmetatable (L : lua_State) (idx : Int) : lua_State :=
  let top := L.stack.getLast?
  let L' : lua_State := { L with stack := L.stack.dropLast }
  match index2value L idx, top with
  | some (LuaValue.lightuserdata _), some (LuaValue.metatable name) =>
    { L' with lightMeta := some name }
  | some (LuaValue.lightuserdata _), some LuaValue.nil => { L' with lightMeta := none }
  | _, _ => L'

/-- The name of the iterator metatable; the constant is defined in `db.hpp`, and only
its identity matters. -/
def LVLDB_MT_ITER : String := "LVLDB_MT_ITER"

/-- The name of the write batch metatable; the constant is defined in `db.hpp`, and
only its identity matters. -/
def LVLDB_MT_BATCH : String := "LVLDB_MT_BATCH"

/-! ## Helpers of the binding that `db.cc` calls and `db.hpp` declares -/

/-- Modelled from the spec: `lua_to_slice` is declared in `db.hpp` and defined outside
`src/`.  Section 4.2: `toSlice(hostValue) -> ByteSlice | TypeError`, rejecting inputs
that are not byte-like and preserving the exact byte length, embedded zero bytes
included. -/
def lua_to_slice (L : lua_State) (i : Int) : Except Failure Bytes :=
  match index2value L i with
  | some (LuaValue.string s) => Except.ok s
  | _ => Except.error (Failure.argError i
      ("string expected, got " ++ lua_typename (lua_type L i)))

/-- Modelled from the spec: `string_to_lua` is declared in `db.hpp` and defined outside
`src/`.  Section 4.2: `fromSlice(ByteSlice) -> hostValue`, preserving the exact byte
length (no C-string truncation). -/
def string_to_lua (L : lua_State) (value : Bytes) : lua_State := lua_pushlstring L value

/-- Modelled from the spec: `lvldb_wopt` is declared in `db.hpp` and defined outside
`src/`.  Section 4.3: `buildWriteOptions(config?)`; an absent configuration gives the
defaults, a table gives `sync` (default false), other keys are ignored. -/
def lvldb_wopt (L : lua_State) (idx : Int) : Except Failure WriteOptions :=
  match index2value L idx with
  | none => Except.ok {}
  | some LuaValue.nil => Except.ok {}
  | some (LuaValue.table fields) =>
    Except.ok { sync := match fields.lookup "sync" with
                        | some (FieldValue.boolean b) => b
                        | _ => false }
  | some _ => Except.error (Failure.argError idx "write options expected")

/-- Modelled from the spec: `lvldb_ropt` is declared in `db.hpp` and defined outside
`src/`.  Section 4.3: `buildReadOptions(config?)`; an absent configuration gives the
defaults, a table gives `verifyChecksums` (default false), `fillCache` (default true)
and `snapshot`, which must be a snapshot handle: anything else is a type error. -/
def lvldb_ropt (L : lua_State) (idx : Int) (H : Heap) : Except Failure ReadOptions :=
  match index2value L idx with
  | none => Except.ok {}
  | some LuaValue.nil => Except.ok {}
  | some (LuaValue.table fields) =>
    let vc := match fields.lookup "verifyChecksums" with
              | some (FieldValue.boolean b) => b
              | _ => false
    let fc := match fields.lookup "fillCache" with
              | some (FieldValue.boolean b) => b
              | _ => true
    match fields.lookup "snapshot" with
    | none => Except.ok { verify_checksums := vc, fill_cache := fc }
    | some (FieldValue.lightuserdata p) =>
      match H.get p with
      | some (Obj.snapshot s) =>
        Except.ok { verify_checksums := vc, fill_cache := fc, snapshot := some s }
      | _ => Except.error (Failure.argError idx "'snapshot' expected")
    | some _ => Except.error (Failure.argError idx "'snapshot' expected")
  | some _ => Except.error (Failure.argError idx "read options expected")

/-- Modelled from the spec: `check_writebatch` is declared in `db.hpp` and defined
outside `src/`.  Section 4.1: `validate(handle, expectedKind)` for the batch kind: the
handle must carry the batch tag and must not be null, else a type error. -/
def check_writebatch (L : lua_State) (index : Int) : Except Failure Nat :=
  match index2value L index with
  | some (LuaValue.userdata mt p) =>
    if mt = LVLDB_MT_BATCH ∧ p ≠ NULL then Except.ok p
    else Except.error (Failure.argError index "'batch' expected")
  | _ => Except.error (Failure.argError index "'batch' expected")

/-! ## Outcomes -/

deriving instance DecidableEq for Except

/-- How a call of a C function of the binding ends: it returns `n` results on the
stack of `L`, or it fails; `heap` is the native heap at that point. -/
structure Outcome where
  result : Except Failure (Nat × lua_State)
  heap : Heap
  deriving DecidableEq

/-- The call fails with `e`. -/
def Outcome.raise (e : Failure) (H : Heap) : Outcome := ⟨Except.error e, H⟩

/-- The call returns `n` results. -/
def Outcome.ret (n : Nat) (L : lua_State) (H : Heap) : Outcome := ⟨Except.ok (n, L), H⟩

/-- The values the host receives: the top `n` stack slots; `none` when the call fails. -/
def Outcome.values (o : Outcome) : Option (List LuaValue) :=
  match o.result with
  | Except.ok (n, L) => some (L.stack.drop (L.stack.length - n))
  | Except.error _ => none

/-- The call failed with a type error raised to the host. -/
def Outcome.typeError (o : Outcome) : Bool :=
  match o.result with
  | Except.ok _ => false
  | Except.error e => e.isTypeError

/-- The macro `assert(cond)`: nothing when `NDEBUG` is defined, else abort unless `cond`. -/
def c_assert (NDEBUG : Bool) (cond : Bool) (expr : String) : Except Failure Unit :=
  if NDEBUG || cond then Except.ok () else Except.error (Failure.assertion expr)

/-! ## `db.cc` -/

/-- Embedding of `check_database` (db.cc:6-16).  The type check and `lua_touserdata` read stack
slot 1; the second `luaL_argcheck` reads slot `index`. -/
def check_database (L : lua_State) (index : Int) : Except Failure Nat := do
  luaL_checktype L 1 LuaType.LUA_TLIGHTUSERDATA
  let ud := lua_touserdata L 1
  luaL_argcheck (ud != NULL) index "'database' expected"
  luaL_argcheck (lua_islightuserdata L index) index "'database' expected"
  pure ud

/-- Embedding of `lvldb_database_put` (db.cc:33-49). -/
def lvldb_database_put (L : lua_State) (H : Heap) : Outcome :=
  let args : Except Failure (Nat × Bytes × Bytes × WriteOptions) := do
    let db ← check_database L 1
    let key ← lua_to_slice L 2
    let value ← lua_to_slice L 3
    let wopt ← lvldb_wopt L 4
    pure (db, key, value, wopt)
  match args with
  | Except.error e => Outcome.raise e H
  | Except.ok (db, key, value, wopt) =>
    match H.get db with
    | some (Obj.db d) =>
      let s := (d.Put wopt key value).1
      let H' := H.set db (Obj.db (d.Put wopt key value).2)
      if s.ok then Outcome.ret 1 (lua_pushboolean L true) H'
      else Outcome.ret 1 (lua_pushboolean L false) H'
    | _ => Outcome.raise Failure.undefined H

/-- Embedding of `lvldb_database_get` (db.cc:58-75). -/
def lvldb_database_get (L : lua_State) (H : Heap) : Outcome :=
  let args : Except Failure (Nat × Bytes × ReadOptions) := do
    let db ← check_database L 1
    let key ← lua_to_slice L 2
    let ropt ← lvldb_ropt L 3 H
    pure (db, key, ropt)
  match args with
  | Except.error e => Outcome.raise e H
  | Except.ok (db, key, ropt) =>
    match H.get db with
    | some (Obj.db d) =>
      let s := (d.Get ropt key []).1
      let value := (d.Get ropt key []).2
      if s.ok then Outcome.ret 1 (string_to_lua L value) H
      else Outcome.ret 1 (lua_pushboolean L false) H
    | _ => Outcome.raise Failure.undefined H

/-- Embedding of `lvldb_database_has` (db.cc:84-100). -/
def lvldb_database_has (L : lua_State) (H : Heap) : Outcome :=
  let args : Except Failure (Nat × Bytes × ReadOptions) := do
    let db ← check_database L 1
    let key ← lua_to_slice L 2
    let ropt ← lvldb_ropt L 3 H
    pure (db, key, ropt)
  match args with
  | Except.error e => Outcome.raise e H
  | Except.ok (db, key, ropt) =>
    match H.get db with
    | some (Obj.db d) =>
      let s := (d.Get ropt key []).1
      if s.ok then Outcome.ret 1 (lua_pushboolean L true) H
      else Outcome.ret 1 (lua_pushboolean L false) H
    | _ => Outcome.raise Failure.undefined H

/-- The loop of `lvldb_database_set` (db.cc:124-130), entered after `SeekToLast()`:
gives `found`, the iterator and the counter `i` (a `uint64_t`) at loop exit, or `none`
when `fuel` iterations do not reach the exit. -/
def set_loop (value : Bytes) : Nat → Iterator → Nat → Option (Bool × Iterator × Nat)
  | 0, _, _ => none
  | fuel + 1, it, i =>
    if it.Valid then
      if value == it.value then some (true, it, i)
      else set_loop value fuel it.Prev ((i + 1) % 2 ^ 64)
    else some (false, it, i)

/-- Embedding of `lvldb_database_set` (db.cc:105-150), the `__x86_64__` variant of the counter.
`NDEBUG` tells whether `assert` is compiled out; `fuel` bounds the loop. -/
def lvldb_database_set (NDEBUG : Bool) (fuel : Nat) (L : lua_State) (H : Heap) :
    Option Outcome :=
  let args : Except Failure (Nat × Bytes × ReadOptions) := do
    let db ← check_database L 1
    let value ← lua_to_slice L 2
    let ropt ← lvldb_ropt L 3 H
    pure (db, value, ropt)
  match args with
  | Except.error e => some (Outcome.raise e H)
  | Except.ok (db, value, ropt) =>
    match H.get db with
    | some (Obj.db d) =>
      match set_loop value fuel (d.NewIterator ropt).SeekToLast 1 with
      | none => none
      | some (found, it, _) =>
        if !found then
          let s := (d.Put {} (lit "0") value).1
          let H' := H.set db (Obj.db (d.Put {} (lit "0") value).2)
          match c_assert NDEBUG s.ok "s.ok()" with
          | Except.error e => some (Outcome.raise e H')
          | Except.ok _ =>
            match c_assert NDEBUG it.status.ok "it->status().ok()" with
            | Except.error e => some (Outcome.raise e H')
            | Except.ok _ => some (Outcome.ret 0 L H')
        else
          match c_assert NDEBUG it.status.ok "it->status().ok()" with
          | Except.error e => some (Outcome.raise e H)
          | Except.ok _ => some (Outcome.ret 0 L H)
    | _ => some (Outcome.raise Failure.undefined H)

/-- Embedding of `lvldb_database_del` (db.cc:152-167). -/
def lvldb_database_del (L : lua_State) (H : Heap) : Outcome :=
  let args : Except Failure (Nat × Bytes × WriteOptions) := do
    let db ← check_database L 1
    let key ← lua_to_slice L 2
    let wopt ← lvldb_wopt L 3
    pure (db, key, wopt)
  match args with
  | Except.error e => Outcome.raise e H
  | Except.ok (db, key, wopt) =>
    match H.get db with
    | some (Obj.db d) =>
      let s := (d.Delete wopt key).1
      let H' := H.set db (Obj.db (d.Delete wopt key).2)
      if s.ok then Outcome.ret 1 (lua_pushboolean L true) H'
      else Outcome.ret 1 (lua_pushboolean L false) H'
    | _ => Outcome.raise Failure.undefined H

/-- Embedding of `lvldb_database_iterator` (db.cc:177-187): the new iterator is placed on the heap
and its address is pushed as a light userdata. -/
def lvldb_database_iterator (L : lua_State) (H : Heap) : Outcome :=
  let args : Except Failure (Nat × ReadOptions) := do
    let db ← check_database L 1
    let ropt ← lvldb_ropt L 2 H
    pure (db, ropt)
  match args with
  | Except.error e => Outcome.raise e H
  | Except.ok (db, ropt) =>
    match H.get db with
    | some (Obj.db d) =>
      let it := (H.alloc (Obj.iter (d.NewIterator ropt))).1
      let H' := (H.alloc (Obj.iter (d.NewIterator ropt))).2
      let L1 := lua_pushlightuserdata L it
      let L2 := luaL_getmetatable L1 LVLDB_MT_ITER
      let L3 := lua_setmetatable L2 (-2)
      Outcome.ret 1 L3 H'
    | _ => Outcome.raise Failure.undefined H

/-- Embedding of `lvldb_database_write` (db.cc:190-198): `batch` is a copy of the caller's batch;
the status `s` of `Write` is not used. -/
def lvldb_database_write (L : lua_State) (H : Heap) : Outcome :=
  match check_database L 1 with
  | Except.error e => Outcome.raise e H
  | Except.ok db =>
    match check_writebatch L 2 with
    | Except.error e => Outcome.raise e H
    | Except.ok pb =>
      match H.get pb with
      | some (Obj.batch src) =>
        let batch : WriteBatch := src
        match lvldb_wopt L 3 with
        | Except.error e => Outcome.raise e H
        | Except.ok wopt =>
          match H.get db with
          | some (Obj.db d) =>
            let _s := (d.Write wopt batch).1
            let H' := H.set db (Obj.db (d.Write wopt batch).2)
            Outcome.ret 0 L H'
          | _ => Outcome.raise Failure.undefined H
      | _ => Outcome.raise Failure.undefined H

/-- Embedding of `lvldb_database_snapshot` (db.cc:208-216): the snapshot is placed on the heap and
its address is pushed as a light userdata. -/
def lvldb_database_snapshot (L : lua_State) (H : Heap) : Outcome :=
  match check_database L 1 with
  | Except.error e => Outcome.raise e H
  | Except.ok db =>
    match H.get db with
    | some (Obj.db d) =>
      let snapshot := (H.alloc (Obj.snapshot d.GetSnapshot)).1
      let H' := (H.alloc (Obj.snapshot d.GetSnapshot)).2
      Outcome.ret 1 (lua_pushlightuserdata L snapshot) H'
    | _ => Outcome.raise Failure.undefined H

/-- The manipulator `std::endl`. -/
def endl : Bytes := lit "\n"

/-- The `while` loop of `lvldb_database_tostring` (db.cc:237-245): the iterator and
the stream contents at loop exit, or `none` when `fuel` iterations do not reach it. -/
def tostring_loop : Nat → Iterator → Bytes → Option (Iterator × Bytes)
  | 0, _, _ => none
  | fuel + 1, it, oss =>
    if it.Valid then
      tostring_loop fuel it.Next (oss ++ it.key ++ lit " -> " ++ it.value ++ endl)
    else some (it, oss)

/-- Embedding of `lvldb_database_tostring` (db.cc:224-255).  `NDEBUG` tells whether `assert` is
compiled out; `fuel` bounds the loop. -/
def lvldb_database_tostring (NDEBUG : Bool) (fuel : Nat) (L : lua_State) (H : Heap) :
    Option Outcome :=
  match check_database L 1 with
  | Except.error e => some (Outcome.raise e H)
  | Except.ok db =>
    match H.get db with
    | some (Obj.db d) =>
      let oss := lit "DB output:" ++ endl
      let it := (d.NewIterator {}).SeekToFirst
      let r := if !it.Valid then some (it, oss ++ lit "Database is empty." ++ endl)
               else tostring_loop fuel it oss
      match r with
      | none => none
      | some (it, oss) =>
        match c_assert NDEBUG it.status.ok "it->status().ok()" with
        | Except.error e => some (Outcome.raise e H)
        | Except.ok _ => some (Outcome.ret 1 (lua_pushstring L oss) H)
    | _ => some (Outcome.raise Failure.undefined H)

/-! ## Sample states used to instantiate the theorems -/

/-- A heap with one working store at address 1 holding `a -> 1` and `b -> 2`. -/
def sampleHeap : Heap :=
  [(1, Obj.db { entries := [(lit "a", lit "1"), (lit "b", lit "2")] })]

/-- A heap with one empty working store at address 1. -/
def emptyHeap : Heap := [(1, Obj.db { entries := [] })]

/-- A heap whose store at address 1 reports an I/O error on every call. -/
def brokenHeap : Heap :=
  [(1, Obj.db { entries := [(lit "a", lit "1")], fault := Status.IoError })]

/-- The argument stack of a method call on the handle at address `p`. -/
def call (p : Nat) (args : List LuaValue) : lua_State :=
  { stack := LuaValue.lightuserdata p :: args }

/-- The heap after `db:put("a", "1")`, `s = db:snapshot()`, `db:delete("a")` on the
empty store at address 1: the store is empty again, the snapshot at address 2 still
holds `a -> 1`. -/
def staleSnapshotHeap : Heap :=
  (lvldb_database_del (call 1 [LuaValue.string (lit "a")])
    (lvldb_database_snapshot (call 1 [])
      (lvldb_database_put (call 1 [LuaValue.string (lit "a"), LuaValue.string (lit "1")])
        emptyHeap).heap).heap).heap

/-- The sample store at address 1 and, at address 2, a batch with two operations. -/
def batchHeap : Heap :=
  [(1, Obj.db { entries := [(lit "a", lit "1"), (lit "b", lit "2")] }),
   (2, Obj.batch [BatchOp.put (lit "c") (lit "3"), BatchOp.delete (lit "a")])]

/-- As `batchHeap`, with a store that reports an I/O error on every call. -/
def brokenBatchHeap : Heap :=
  [(1, Obj.db { entries := [(lit "a", lit "1")], fault := Status.IoError }),
   (2, Obj.batch [BatchOp.put (lit "c") (lit "3"), BatchOp.delete (lit "a")])]

/-- The arguments of `db:write(batch)` with the batch handle at address 2. -/
def writeCall : lua_State := call 1 [LuaValue.userdata LVLDB_MT_BATCH 2]

/-- The heap after `it = db:iterator()` on the store of `batchHeap`: the iterator lives
at address 3 and `it` is the light userdata with that address. -/
def iteratorHeap : Heap := (lvldb_database_iterator (call 1 []) batchHeap).heap

/-- A working store at address 1 whose only key, `a\0b`, holds a zero byte. -/
def zeroByteHeap : Heap := [(1, Obj.db { entries := [([97, 0, 98], lit "1")] })]

/-- The arguments of `db:get("a", {snapshot = s})` with `s` the handle at address 2. -/
def readThroughSnapshot : lua_State :=
  call 1 [LuaValue.string (lit "a"),
          LuaValue.table [("snapshot", FieldValue.lightuserdata 2)]]

/-! ## Facts about the models -/

theorem Entries.lookup_insert_same (es : Entries) (k v : Bytes) :
    (es.insert k v).lookup k = some v := by
  induction es with
  | nil => simp [Entries.insert, Entries.lookup]
  | cons e es ih =>
    obtain ⟨k', v'⟩ := e
    by_cases h : k' = k
    · simp [Entries.insert, Entries.lookup, h]
    · by_cases h2 : bytesLt k k' = true
      · simp [Entries.insert, Entries.lookup, h, h2]
      · simp [Entries.insert, Entries.lookup, h, h2, ih]

theorem Entries.lookup_erase_same (es : Entries) (k : Bytes) :
    (es.erase k).lookup k = none := by
  induction es with
  | nil => simp [Entries.erase, Entries.lookup]
  | cons e es ih =>
    obtain ⟨k', v'⟩ := e
    by_cases h : k' = k
    · simp [Entries.erase, h, ih]
    · simp [Entries.erase, Entries.lookup, h, ih]

theorem Entries.lookup_erase_other (es : Entries) (k k' : Bytes) (hne : k' ≠ k) :
    (es.erase k).lookup k' = es.lookup k' := by
  induction es with
  | nil => simp [Entries.erase, Entries.lookup]
  | cons e es ih =>
    obtain ⟨k₀, v₀⟩ := e
    by_cases h : k₀ = k
    · subst h
      have : ¬ k₀ = k' := fun h => hne h.symm
      simp [Entries.erase, Entries.lookup, ih, this]
    · simp [Entries.erase, Entries.lookup, h, ih]

theorem Status.ok_iff (s : Status) : s.ok = true ↔ s = Status.OK := by
  cases s <;> simp [Status.ok]

theorem Status.not_ok_iff (s : Status) : s.ok = false ↔ s ≠ Status.OK := by
  cases s <;> simp [Status.ok]

/-- The store accepts a `Put` exactly when the engine reports no failure. -/
theorem DB.Put_accepts (d : DB) (w : WriteOptions) (k v : Bytes) :
    (d.Put w k v).1 = Status.OK ↔ d.fault = Status.OK := by
  obtain ⟨es, f⟩ := d
  cases f <;> simp [DB.Put, Status.ok]

/-- The store accepts a `Delete` exactly when the engine reports no failure. -/
theorem DB.Delete_accepts (d : DB) (w : WriteOptions) (k : Bytes) :
    (d.Delete w k).1 = Status.OK ↔ d.fault = Status.OK := by
  obtain ⟨es, f⟩ := d
  cases f <;> simp [DB.Delete, Status.ok]

/-- The store accepts a `Write` exactly when the engine reports no failure. -/
theorem DB.Write_accepts (d : DB) (w : WriteOptions) (b : WriteBatch) :
    (d.Write w b).1 = Status.OK ↔ d.fault = Status.OK := by
  obtain ⟨es, f⟩ := d
  cases f <;> simp [DB.Write, Status.ok]

theorem Heap.get_set_same (H : Heap) (p : Nat) (o o' : Obj) (h : H.get p = some o') :
    (H.set p o).get p = some o := by
  induction H with
  | nil => simp [Heap.get] at h
  | cons e H ih =>
    obtain ⟨q, o₀⟩ := e
    by_cases hq : q = p
    · simp [Heap.set, Heap.get, hq]
    · simp [Heap.get, hq] at h
      simp [Heap.set, Heap.get, hq, ih h]

theorem Heap.get_set_other (H : Heap) (p q : Nat) (o : Obj) (hne : q ≠ p) :
    (H.set p o).get q = H.get q := by
  induction H with
  | nil => simp [Heap.set, Heap.get]
  | cons e H ih =>
    obtain ⟨q₀, o₀⟩ := e
    by_cases hq : q₀ = p
    · subst hq
      simp [Heap.set, Heap.get, hne.symm]
    · simp [Heap.set, Heap.get, hq, ih]

theorem Heap.set_get_self (H : Heap) (p : Nat) (o : Obj) (h : H.get p = some o) :
    H.set p o = H := by
  induction H with
  | nil => simp [Heap.set]
  | cons e H ih =>
    obtain ⟨q, o₀⟩ := e
    by_cases hq : q = p
    · simp [Heap.get, hq] at h
      simp [Heap.set, hq, h]
    · simp [Heap.get, hq] at h
      simp [Heap.set, hq, ih h]

/-- Replacing a store by a store does not change how read options are translated:
a store is not a snapshot before or after. -/
theorem lvldb_ropt_set_db (L : lua_State) (idx : Int) (H : Heap) (p : Nat) (d d' : DB)
    (h : H.get p = some (Obj.db d)) :
    lvldb_ropt L idx (H.set p (Obj.db d')) = lvldb_ropt L idx H := by
  have key : ∀ q, (∃ s, (H.set p (Obj.db d')).get q = some (Obj.snapshot s)) ∨
      (∃ s, H.get q = some (Obj.snapshot s)) → (H.set p (Obj.db d')).get q = H.get q := by
    intro q hq
    by_cases hqp : q = p
    · subst hqp
      rw [Heap.get_set_same H q _ _ h, h] at hq
      simp at hq
    · exact Heap.get_set_other H p q _ hqp
  unfold lvldb_ropt
  cases hv : index2value L idx with
  | none => rfl
  | some v =>
    cases v <;> try rfl
    rename_i fields
    simp only
    cases hs : List.lookup "snapshot" fields with
    | none => rfl
    | some f =>
      cases f <;> try rfl
      rename_i q
      simp only
      by_cases hqp : q = p
      · subst hqp
        rw [Heap.get_set_same H q _ _ h, h]
      · rw [Heap.get_set_other H p q _ hqp]

/-! ## The claims -/

/-- C1. Round trip of `lvldb_database_put` and `lvldb_database_get`: for every heap,
store `d` behind the handle, and byte slices `k`, `v` (any bytes, empty or with zero
bytes), when the store accepts the write, put returns the single value `true` and a
following get of `k` with default read options returns exactly the string `v`. -/
theorem put_get_roundtrip (L₁ L₂ : lua_State) (H : Heap) (p : Nat) (d : DB)
    (k v : Bytes) (w : WriteOptions)
    (hdb₁ : check_database L₁ 1 = Except.ok p)
    (hk₁ : lua_to_slice L₁ 2 = Except.ok k)
    (hv₁ : lua_to_slice L₁ 3 = Except.ok v)
    (hw₁ : lvldb_wopt L₁ 4 = Except.ok w)
    (hH : H.get p = some (Obj.db d))
    (haccept : (d.Put w k v).1 = Status.OK)
    (hdb₂ : check_database L₂ 1 = Except.ok p)
    (hk₂ : lua_to_slice L₂ 2 = Except.ok k)
    (hr₂ : ∀ H', lvldb_ropt L₂ 3 H' = Except.ok {}) :
    (lvldb_database_put L₁ H).values = some [LuaValue.boolean true] ∧
    (lvldb_database_get L₂ (lvldb_database_put L₁ H).heap).values
      = some [LuaValue.string v] := by
  have hf : d.fault = Status.OK := (DB.Put_accepts d w k v).mp haccept
  obtain ⟨es, f⟩ := d
  simp only at hf
  subst hf
  have hget := Heap.get_set_same H p (Obj.db { entries := es.insert k v }) _ hH
  have hput : lvldb_database_put L₁ H
      = Outcome.ret 1 (lua_pushboolean L₁ true) (H.set p (Obj.db { entries := es.insert k v })) := by
    simp [lvldb_database_put, hdb₁, hk₁, hv₁, hw₁, hH, bind, Except.bind, pure, Except.pure,
      DB.Put, Status.ok]
  rw [hput]
  constructor
  · simp [Outcome.ret, Outcome.values, lua_pushboolean, lua_push]
  · simp [lvldb_database_get, Outcome.ret, hdb₂, hk₂, hr₂, hget, bind, Except.bind, pure,
      Except.pure, DB.Get, DB.view, Entries.lookup_insert_same, Status.ok,
      Outcome.values, string_to_lua, lua_pushlstring, lua_push]

/-- Instance of C1 on the sample store: the key is empty and the value has a zero byte. -/
theorem put_get_roundtrip_witness :
    (lvldb_database_put
        (call 1 [LuaValue.string [], LuaValue.string [0, 255, 0]]) sampleHeap).values
      = some [LuaValue.boolean true] ∧
    (lvldb_database_get (call 1 [LuaValue.string []])
        (lvldb_database_put
          (call 1 [LuaValue.string [], LuaValue.string [0, 255, 0]]) sampleHeap).heap).values
      = some [LuaValue.string [0, 255, 0]] :=
  put_get_roundtrip (call 1 [LuaValue.string [], LuaValue.string [0, 255, 0]])
    (call 1 [LuaValue.string []]) sampleHeap 1
    { entries := [(lit "a", lit "1"), (lit "b", lit "2")] } [] [0, 255, 0] {}
    (by decide) (by decide) (by decide) (by decide) (by decide) (by decide) (by decide)
    (by decide) (fun _ => by rfl)

/-- C2, the claim as stated fails: after `put("a","1")`, `snapshot()`, `delete("a")` the
key `a` is not in the store (deleted after its last put), yet a read whose options
carry the snapshot returns `"1"` from get and `true` from has. -/
theorem absent_key_read_counterexample :
    staleSnapshotHeap.get 1 = some (Obj.db { entries := [] }) ∧
    (lvldb_database_get readThroughSnapshot staleSnapshotHeap).values
      = some [LuaValue.string (lit "1")] ∧
    (lvldb_database_has readThroughSnapshot staleSnapshotHeap).values
      = some [LuaValue.boolean true] ∧
    ¬ ((lvldb_database_get readThroughSnapshot staleSnapshotHeap).values
          = some [LuaValue.boolean false] ∧
       (lvldb_database_has readThroughSnapshot staleSnapshotHeap).values
          = some [LuaValue.boolean false]) := by
  decide

/-- C2, amended. For every heap, store, key `k` and read options: has returns one
boolean, which is `true` exactly when get on the same state returns the stored bytes
and `false` exactly when get returns `false`; the bytes get returns are those stored
under `k` in the state the read observes; and for every `k` that is not in the state
the read observes (the latest state without a snapshot in the options, the snapshot's
state with one) get returns `false` and has returns `false`. -/
theorem has_iff_get_found (L : lua_State) (H : Heap) (p : Nat) (d : DB) (k : Bytes)
    (ro : ReadOptions)
    (hdb : check_database L 1 = Except.ok p)
    (hk : lua_to_slice L 2 = Except.ok k)
    (hr : lvldb_ropt L 3 H = Except.ok ro)
    (hH : H.get p = some (Obj.db d)) :
    (∃ b, (lvldb_database_has L H).values = some [LuaValue.boolean b] ∧
      (b = true ↔ ∃ v, (lvldb_database_get L H).values = some [LuaValue.string v]) ∧
      (b = false ↔ (lvldb_database_get L H).values = some [LuaValue.boolean false])) ∧
    (∀ v, (lvldb_database_get L H).values = some [LuaValue.string v] →
      (d.view ro).lookup k = some v) ∧
    ((d.view ro).lookup k = none →
      (lvldb_database_get L H).values = some [LuaValue.boolean false] ∧
      (lvldb_database_has L H).values = some [LuaValue.boolean false]) := by
  have hhas : (lvldb_database_has L H).values
      = some [LuaValue.boolean (d.Get ro k []).1.ok] := by
    cases hs : (d.Get ro k []).1.ok <;>
      simp [lvldb_database_has, hdb, hk, hr, hH, bind, Except.bind, pure, Except.pure, hs,
        Outcome.ret, Outcome.values, lua_pushboolean, lua_push]
  have hget : (lvldb_database_get L H).values
      = some [if (d.Get ro k []).1.ok then LuaValue.string (d.Get ro k []).2
              else LuaValue.boolean false] := by
    cases hs : (d.Get ro k []).1.ok <;>
      simp [lvldb_database_get, hdb, hk, hr, hH, bind, Except.bind, pure, Except.pure, hs,
        Outcome.ret, Outcome.values, lua_pushboolean, string_to_lua, lua_pushlstring, lua_push]
  rw [hhas, hget]
  obtain ⟨es, f⟩ := d
  cases hl : (DB.view ⟨es, f⟩ ro).lookup k <;> cases f <;>
    simp [DB.Get, Status.ok, hl]

/-- Instance of C2 (amended) on the sample store, for a key that is absent. -/
theorem has_iff_get_found_witness :
    (lvldb_database_get (call 1 [LuaValue.string (lit "zz")]) sampleHeap).values
      = some [LuaValue.boolean false] ∧
    (lvldb_database_has (call 1 [LuaValue.string (lit "zz")]) sampleHeap).values
      = some [LuaValue.boolean false] :=
  (has_iff_get_found (call 1 [LuaValue.string (lit "zz")]) sampleHeap 1
    { entries := [(lit "a", lit "1"), (lit "b", lit "2")] } (lit "zz") {}
    (by decide) (by decide) (by decide) (by decide)).2.2 (by decide)

/-- C3. For every heap, store `d` and key `k`, present in `d` or not: when the store
accepts the deletion, del returns the single value `true`, a following get of `k`
returns `false`, and every other key keeps its value: a get of another key, with any
read options, returns what it returned before, and the store holds for it what it held. -/
theorem del_then_get (L₁ L₂ : lua_State) (H : Heap) (p : Nat) (d : DB) (k : Bytes)
    (w : WriteOptions)
    (hdb₁ : check_database L₁ 1 = Except.ok p)
    (hk₁ : lua_to_slice L₁ 2 = Except.ok k)
    (hw₁ : lvldb_wopt L₁ 3 = Except.ok w)
    (hH : H.get p = some (Obj.db d))
    (haccept : (d.Delete w k).1 = Status.OK)
    (hdb₂ : check_database L₂ 1 = Except.ok p)
    (hk₂ : lua_to_slice L₂ 2 = Except.ok k)
    (hr₂ : ∀ H', lvldb_ropt L₂ 3 H' = Except.ok {}) :
    (lvldb_database_del L₁ H).values = some [LuaValue.boolean true] ∧
    (lvldb_database_get L₂ (lvldb_database_del L₁ H).heap).values
      = some [LuaValue.boolean false] ∧
    (∀ L₃ k', check_database L₃ 1 = Except.ok p → lua_to_slice L₃ 2 = Except.ok k' →
      k' ≠ k →
      (lvldb_database_get L₃ (lvldb_database_del L₁ H).heap).values
        = (lvldb_database_get L₃ H).values) ∧
    (∃ d', (lvldb_database_del L₁ H).heap.get p = some (Obj.db d') ∧
      ∀ k', k' ≠ k → d'.entries.lookup k' = d.entries.lookup k') := by
  have hf : d.fault = Status.OK := (DB.Delete_accepts d w k).mp haccept
  obtain ⟨es, f⟩ := d
  simp only at hf
  subst hf
  have hget := Heap.get_set_same H p (Obj.db { entries := es.erase k }) _ hH
  have hdel : lvldb_database_del L₁ H
      = Outcome.ret 1 (lua_pushboolean L₁ true) (H.set p (Obj.db { entries := es.erase k })) := by
    simp [lvldb_database_del, hdb₁, hk₁, hw₁, hH, bind, Except.bind, pure, Except.pure,
      DB.Delete, Status.ok]
  rw [hdel]
  refine ⟨?_, ?_, ?_, ?_⟩
  · simp [Outcome.ret, Outcome.values, lua_pushboolean, lua_push]
  · simp [lvldb_database_get, Outcome.ret, hdb₂, hk₂, hr₂, hget, bind, Except.bind, pure,
      Except.pure, DB.Get, DB.view, Entries.lookup_erase_same, Status.ok,
      Outcome.values, lua_pushboolean, lua_push]
  · intro L₃ k' hdb₃ hk₃ hne
    have hro := lvldb_ropt_set_db L₃ 3 H p ⟨es, Status.OK⟩ { entries := es.erase k } hH
    simp only [Outcome.ret]
    cases hr₃ : lvldb_ropt L₃ 3 H with
    | error e =>
      simp [lvldb_database_get, hdb₃, hk₃, hro, hr₃, bind, Except.bind, pure, Except.pure,
        Outcome.raise, Outcome.values]
    | ok ro =>
      cases hsnap : ro.snapshot with
      | none =>
        simp [lvldb_database_get, hdb₃, hk₃, hro, hr₃, hget, hH, bind, Except.bind, pure,
          Except.pure, DB.Get, DB.view, hsnap, Status.ok,
          Entries.lookup_erase_other es k k' hne]
        cases Entries.lookup es k' <;>
          simp [Outcome.ret, Outcome.values, lua_pushboolean, string_to_lua,
            lua_pushlstring, lua_push]
      | some sn =>
        simp [lvldb_database_get, hdb₃, hk₃, hro, hr₃, hget, hH, bind, Except.bind, pure,
          Except.pure, DB.Get, DB.view, hsnap, Status.ok]
        cases Entries.lookup sn k' <;>
          simp [Outcome.ret, Outcome.values, lua_pushboolean, string_to_lua,
            lua_pushlstring, lua_push]
  · refine ⟨{ entries := es.erase k }, hget, ?_⟩
    intro k' hne
    exact Entries.lookup_erase_other es k k' hne

/-- Instance of C3 on the sample store: deleting a key that was never put. -/
theorem del_then_get_witness :
    (lvldb_database_del (call 1 [LuaValue.string (lit "zz")]) sampleHeap).values
      = some [LuaValue.boolean true] ∧
    (lvldb_database_get (call 1 [LuaValue.string (lit "zz")])
        (lvldb_database_del (call 1 [LuaValue.string (lit "zz")]) sampleHeap).heap).values
      = some [LuaValue.boolean false] :=
  have h := del_then_get (call 1 [LuaValue.string (lit "zz")])
    (call 1 [LuaValue.string (lit "zz")]) sampleHeap 1
    { entries := [(lit "a", lit "1"), (lit "b", lit "2")] } (lit "zz") {}
    (by decide) (by decide) (by decide) (by decide) (by decide) (by decide) (by decide)
    (fun _ => by rfl)
  ⟨h.1, h.2.1⟩

/-- C4. Storage failures are reported, not raised: whatever status the store returns,
put and del return exactly one value, the boolean telling whether the status is ok,
and get returns exactly one value, the stored bytes when the status is ok and `false`
otherwise; so get returns the same `false` for a not-found status and an I/O error. -/
theorem storage_failures_reported (Lp Ld Lg : lua_State) (H : Heap) (p : Nat) (d : DB)
    (kp v kd kg : Bytes) (wp wd : WriteOptions) (ro : ReadOptions)
    (hH : H.get p = some (Obj.db d))
    (hdbp : check_database Lp 1 = Except.ok p)
    (hkp : lua_to_slice Lp 2 = Except.ok kp)
    (hvp : lua_to_slice Lp 3 = Except.ok v)
    (hwp : lvldb_wopt Lp 4 = Except.ok wp)
    (hdbd : check_database Ld 1 = Except.ok p)
    (hkd : lua_to_slice Ld 2 = Except.ok kd)
    (hwd : lvldb_wopt Ld 3 = Except.ok wd)
    (hdbg : check_database Lg 1 = Except.ok p)
    (hkg : lua_to_slice Lg 2 = Except.ok kg)
    (hrg : lvldb_ropt Lg 3 H = Except.ok ro) :
    (lvldb_database_put Lp H).values = some [LuaValue.boolean (d.Put wp kp v).1.ok] ∧
    (lvldb_database_del Ld H).values = some [LuaValue.boolean (d.Delete wd kd).1.ok] ∧
    (lvldb_database_get Lg H).values
      = some [if (d.Get ro kg []).1.ok then LuaValue.string (d.Get ro kg []).2
              else LuaValue.boolean false] ∧
    (∀ s, (d.Get ro kg []).1 = s → s = Status.NotFound ∨ s = Status.IoError →
      (lvldb_database_get Lg H).values = some [LuaValue.boolean false]) := by
  have hget : (lvldb_database_get Lg H).values
      = some [if (d.Get ro kg []).1.ok then LuaValue.string (d.Get ro kg []).2
              else LuaValue.boolean false] := by
    cases hs : (d.Get ro kg []).1.ok <;>
      simp [lvldb_database_get, hdbg, hkg, hrg, hH, bind, Except.bind, pure, Except.pure, hs,
        Outcome.ret, Outcome.values, lua_pushboolean, string_to_lua, lua_pushlstring, lua_push]
  refine ⟨?_, ?_, hget, ?_⟩
  · cases hs : (d.Put wp kp v).1.ok <;>
      simp [lvldb_database_put, hdbp, hkp, hvp, hwp, hH, bind, Except.bind, pure,
        Except.pure, hs, Outcome.ret, Outcome.values, lua_pushboolean, lua_push]
  · cases hs : (d.Delete wd kd).1.ok <;>
      simp [lvldb_database_del, hdbd, hkd, hwd, hH, bind, Except.bind, pure,
        Except.pure, hs, Outcome.ret, Outcome.values, lua_pushboolean, lua_push]
  · intro s hs hcase
    rw [hget, hs]
    rcases hcase with h | h <;> subst h <;> simp [Status.ok]

/-- Instance of C4 on the store that reports an I/O error: put, del and get each
return the single value `false`. -/
theorem storage_failures_reported_witness :
    (lvldb_database_put (call 1 [LuaValue.string (lit "k"), LuaValue.string (lit "v")])
        brokenHeap).values = some [LuaValue.boolean false] ∧
    (lvldb_database_del (call 1 [LuaValue.string (lit "a")]) brokenHeap).values
      = some [LuaValue.boolean false] ∧
    (lvldb_database_get (call 1 [LuaValue.string (lit "a")]) brokenHeap).values
      = some [LuaValue.boolean false] :=
  have h := storage_failures_reported
    (call 1 [LuaValue.string (lit "k"), LuaValue.string (lit "v")])
    (call 1 [LuaValue.string (lit "a")]) (call 1 [LuaValue.string (lit "a")])
    brokenHeap 1 { entries := [(lit "a", lit "1")], fault := Status.IoError }
    (lit "k") (lit "v") (lit "a") (lit "a") {} {} {}
    (by decide) (by decide) (by decide) (by decide) (by decide) (by decide) (by decide)
    (by decide) (by decide) (by decide) (by decide)
  ⟨h.1, h.2.1, h.2.2.1⟩

/-- What `check_database` accepts: any non-null light userdata in slot 1. -/
theorem check_database_accepts (L : lua_State) (p : Nat)
    (h : index2value L 1 = some (LuaValue.lightuserdata p)) (hp : p ≠ NULL) :
    check_database L 1 = Except.ok p := by
  simp [check_database, luaL_checktype, lua_type, h, LuaValue.type, lua_touserdata,
    luaL_argcheck, lua_islightuserdata, hp, bind, Except.bind, pure, Except.pure]

/-- What `check_database` rejects: everything else, with a bad-argument error. -/
theorem check_database_rejects (L : lua_State)
    (h : ∀ p, index2value L 1 = some (LuaValue.lightuserdata p) → p = NULL) :
    ∃ a m, check_database L 1 = Except.error (Failure.argError a m) := by
  refine ⟨1, if lua_type L 1 = LuaType.LUA_TLIGHTUSERDATA then "'database' expected"
    else lua_typename LuaType.LUA_TLIGHTUSERDATA ++ " expected, got "
      ++ lua_typename (lua_type L 1), ?_⟩
  cases hv : index2value L 1 with
  | none =>
    simp [check_database, luaL_checktype, lua_type, hv, bind, Except.bind]
  | some x =>
    cases x with
    | lightuserdata p =>
      have hp := h p hv
      subst hp
      simp [check_database, luaL_checktype, lua_type, hv, LuaValue.type, lua_touserdata,
        luaL_argcheck, bind, Except.bind]
    | _ =>
      simp [check_database, luaL_checktype, lua_type, hv, LuaValue.type, bind, Except.bind]

/-- C5, the claim as stated fails: the handle `db:iterator()` returns is a light
userdata (address 3, an iterator); passed as the subject, `check_database` accepts it
and none of the eight operations fails with a type error. -/
theorem iterator_handle_accepted_counterexample :
    (lvldb_database_iterator (call 1 []) batchHeap).values
      = some [LuaValue.lightuserdata 3] ∧
    iteratorHeap.get 3
      = some (Obj.iter { entries := [(lit "a", lit "1"), (lit "b", lit "2")] }) ∧
    check_database (call 3 []) 1 = Except.ok 3 ∧
    (lvldb_database_put (call 3 [LuaValue.string (lit "k"), LuaValue.string (lit "v")])
      iteratorHeap).typeError = false ∧
    (lvldb_database_get (call 3 [LuaValue.string (lit "k")]) iteratorHeap).typeError = false ∧
    (lvldb_database_has (call 3 [LuaValue.string (lit "k")]) iteratorHeap).typeError = false ∧
    (lvldb_database_del (call 3 [LuaValue.string (lit "k")]) iteratorHeap).typeError = false ∧
    (lvldb_database_write (call 3 [LuaValue.userdata LVLDB_MT_BATCH 2])
      iteratorHeap).typeError = false ∧
    (lvldb_database_iterator (call 3 []) iteratorHeap).typeError = false ∧
    (lvldb_database_snapshot (call 3 []) iteratorHeap).typeError = false ∧
    (lvldb_database_tostring false 3 (call 3 []) iteratorHeap).map Outcome.typeError
      = some false := by
  decide

/-- C5, amended. For every operation that calls `check_database` (put, get, has,
delete, write, iterator, snapshot, tostring): when the subject is not a light
userdata, or is the null light userdata, the call fails with a type error and the heap,
so every store, is as before; and every non-null light userdata passes
`check_database`, whatever it points to. -/
theorem non_lightuserdata_subject_rejected (L : lua_State) (H : Heap) (NDEBUG : Bool)
    (fuel : Nat)
    (h : ∀ p, index2value L 1 = some (LuaValue.lightuserdata p) → p = NULL) :
    ((lvldb_database_put L H).typeError = true ∧ (lvldb_database_put L H).heap = H) ∧
    ((lvldb_database_get L H).typeError = true ∧ (lvldb_database_get L H).heap = H) ∧
    ((lvldb_database_has L H).typeError = true ∧ (lvldb_database_has L H).heap = H) ∧
    ((lvldb_database_del L H).typeError = true ∧ (lvldb_database_del L H).heap = H) ∧
    ((lvldb_database_write L H).typeError = true ∧ (lvldb_database_write L H).heap = H) ∧
    ((lvldb_database_iterator L H).typeError = true ∧
      (lvldb_database_iterator L H).heap = H) ∧
    ((lvldb_database_snapshot L H).typeError = true ∧
      (lvldb_database_snapshot L H).heap = H) ∧
    (∃ o, lvldb_database_tostring NDEBUG fuel L H = some o ∧ o.typeError = true ∧
      o.heap = H) ∧
    (∀ L' p, index2value L' 1 = some (LuaValue.lightuserdata p) → p ≠ NULL →
      check_database L' 1 = Except.ok p) := by
  obtain ⟨a, m, hc⟩ := check_database_rejects L h
  refine ⟨?_, ?_, ?_, ?_, ?_, ?_, ?_, ?_, ?_⟩
  · simp [lvldb_database_put, hc, bind, Except.bind, Outcome.raise, Outcome.typeError,
      Failure.isTypeError]
  · simp [lvldb_database_get, hc, bind, Except.bind, Outcome.raise, Outcome.typeError,
      Failure.isTypeError]
  · simp [lvldb_database_has, hc, bind, Except.bind, Outcome.raise, Outcome.typeError,
      Failure.isTypeError]
  · simp [lvldb_database_del, hc, bind, Except.bind, Outcome.raise, Outcome.typeError,
      Failure.isTypeError]
  · simp [lvldb_database_write, hc, Outcome.raise, Outcome.typeError, Failure.isTypeError]
  · simp [lvldb_database_iterator, hc, bind, Except.bind, Outcome.raise, Outcome.typeError,
      Failure.isTypeError]
  · simp [lvldb_database_snapshot, hc, Outcome.raise, Outcome.typeError,
      Failure.isTypeError]
  · exact ⟨Outcome.raise (Failure.argError a m) H,
      by simp [lvldb_database_tostring, hc], rfl, rfl⟩
  · intro L' p hv hp
    exact check_database_accepts L' p hv hp

/-- Instance of C5 (amended): a full userdata as the subject of put on the sample heap. -/
theorem non_lightuserdata_subject_rejected_witness :
    (lvldb_database_put
        { stack := [LuaValue.userdata LVLDB_MT_BATCH 1, LuaValue.string (lit "k"),
                    LuaValue.string (lit "v")] } sampleHeap).typeError = true ∧
    (lvldb_database_put
        { stack := [LuaValue.userdata LVLDB_MT_BATCH 1, LuaValue.string (lit "k"),
                    LuaValue.string (lit "v")] } sampleHeap).heap = sampleHeap :=
  (non_lightuserdata_subject_rejected
    { stack := [LuaValue.userdata LVLDB_MT_BATCH 1, LuaValue.string (lit "k"),
                LuaValue.string (lit "v")] } sampleHeap false 0
    (fun _ hp => by cases hp)).1

/-- C6, the code at the failing input: `db:write(batch)` returns no value at all, on a
store that accepts the batch (whose contents become `b -> 2`, `c -> 3`) and on a store
that reports an I/O error alike; the latter call leaves the host with no sign of the
failure. -/
theorem write_returns_no_value :
    (lvldb_database_write writeCall batchHeap).values = some [] ∧
    (lvldb_database_write writeCall batchHeap).result = Except.ok (0, writeCall) ∧
    (lvldb_database_write writeCall batchHeap).heap.get 1
      = some (Obj.db { entries := [(lit "b", lit "2"), (lit "c", lit "3")] }) ∧
    (lvldb_database_write writeCall brokenBatchHeap).values = some [] ∧
    (lvldb_database_write writeCall brokenBatchHeap).result = Except.ok (0, writeCall) ∧
    (lvldb_database_write writeCall brokenBatchHeap).heap = brokenBatchHeap := by
  decide

/-- C7. `lvldb_database_write` hands the store a copy of the batch: the store at the
database handle becomes what `Write` makes of it from the batch's operations in their
insertion order (on success the left-to-right fold of the operations over the old
contents), nothing else on the heap changes, and the caller's batch holds the same
operation sequence after the call as before. -/
theorem write_applies_copy_of_batch (L : lua_State) (H : Heap) (p q : Nat) (d : DB)
    (b : WriteBatch) (w : WriteOptions)
    (hdb : check_database L 1 = Except.ok p)
    (hb : check_writebatch L 2 = Except.ok q)
    (hw : lvldb_wopt L 3 = Except.ok w)
    (hH : H.get p = some (Obj.db d))
    (hq : H.get q = some (Obj.batch b)) :
    (lvldb_database_write L H).heap = H.set p (Obj.db (d.Write w b).2) ∧
    ((d.Write w b).1 = Status.OK →
      (lvldb_database_write L H).heap.get p
        = some (Obj.db { d with entries := b.foldl Entries.apply d.entries })) ∧
    (lvldb_database_write L H).heap.get q = some (Obj.batch b) ∧
    (∀ r, r ≠ p → (lvldb_database_write L H).heap.get r = H.get r) ∧
    (lvldb_database_write L (lvldb_database_write L H).heap).heap
      = (H.set p (Obj.db (d.Write w b).2)).set p
          (Obj.db ((d.Write w b).2.Write w b).2) := by
  have hpq : q ≠ p := by
    intro h
    rw [h, hH] at hq
    cases hq
  have hheap : (lvldb_database_write L H).heap = H.set p (Obj.db (d.Write w b).2) := by
    simp [lvldb_database_write, hdb, hb, hw, hH, hq, Outcome.ret]
  have hp' := Heap.get_set_same H p (Obj.db (d.Write w b).2) _ hH
  have hq' : (H.set p (Obj.db (d.Write w b).2)).get q = some (Obj.batch b) := by
    rw [Heap.get_set_other H p q _ hpq, hq]
  refine ⟨hheap, ?_, ?_, ?_, ?_⟩
  · intro hok
    have hf : d.fault = Status.OK := (DB.Write_accepts d w b).mp hok
    rw [hheap, hp']
    simp [DB.Write, hf, Status.ok]
  · rw [hheap, hq']
  · intro r hr
    rw [hheap, Heap.get_set_other H p r _ hr]
  · rw [hheap]
    simp [lvldb_database_write, hdb, hb, hw, hp', hq', Outcome.ret]

/-- Instance of C7: the batch at address 2 is intact after `db:write(batch)`. -/
theorem write_applies_copy_of_batch_witness :
    (lvldb_database_write writeCall batchHeap).heap.get 2
      = some (Obj.batch [BatchOp.put (lit "c") (lit "3"), BatchOp.delete (lit "a")]) :=
  (write_applies_copy_of_batch writeCall batchHeap 1 2
    { entries := [(lit "a", lit "1"), (lit "b", lit "2")] }
    [BatchOp.put (lit "c") (lit "3"), BatchOp.delete (lit "a")] {}
    (by decide) (by decide) (by decide) (by decide) (by decide)).2.2.1

/-- C8, the code at the failing input: on the store holding `a\\0b -> 1` the string
returned by `db:tostring()` is `DB output:\\na`, cut at the zero byte of the key, where
the claim has `DB output:\\na\\0b -> 1\\n`; the two outputs the claim spells out (empty
store, store with `a -> 1` and `b -> 2`) are as claimed. -/
theorem tostring_cut_at_zero_byte :
    (lvldb_database_tostring false 2 (call 1 []) zeroByteHeap).map Outcome.values
      = some (some [LuaValue.string (lit "DB output:\na")]) ∧
    (lvldb_database_tostring false 2 (call 1 []) zeroByteHeap).map Outcome.values
      ≠ some (some [LuaValue.string
          (lit "DB output:\n" ++ [97, 0, 98] ++ lit " -> 1\n")]) ∧
    (lvldb_database_tostring false 1 (call 1 []) emptyHeap).map Outcome.values
      = some (some [LuaValue.string (lit "DB output:\nDatabase is empty.\n")]) ∧
    (lvldb_database_tostring false 3 (call 1 []) sampleHeap).map Outcome.values
      = some (some [LuaValue.string (lit "DB output:\na -> 1\nb -> 2\n")]) := by
  decide

/-- One iteration of the loop of `lvldb_database_set`. -/
theorem set_loop_step (v : Bytes) (fuel : Nat) (it : Iterator) (i : Nat) :
    set_loop v (fuel + 1) it i
      = if it.Valid = true then
          if v = it.value then some (true, it, i)
          else set_loop v fuel it.Prev ((i + 1) % 2 ^ 64)
        else some (false, it, i) := by
  simp [set_loop]

/-- The backward scan of `lvldb_database_set`, started at index `n`: it stops at the
greatest index at most `n` whose value is `v`, or runs off the front when there is none. -/
theorem set_loop_spec (v : Bytes) (es : Entries) (st : Status) :
    ∀ (n fuel i : Nat), n < es.length → n + 1 < fuel →
      (∃ j i', j ≤ n ∧
        set_loop v fuel ⟨es, some n, st⟩ i = some (true, ⟨es, some j, st⟩, i') ∧
        (es.getD j ([], [])).2 = v ∧
        ∀ j', j < j' → j' ≤ n → (es.getD j' ([], [])).2 ≠ v) ∨
      (∃ i', set_loop v fuel ⟨es, some n, st⟩ i = some (false, ⟨es, none, st⟩, i') ∧
        ∀ j, j ≤ n → (es.getD j ([], [])).2 ≠ v) := by
  intro n
  induction n with
  | zero =>
    intro fuel i hn hfuel
    obtain ⟨f, rfl⟩ : ∃ f, fuel = f + 1 := ⟨fuel - 1, by omega⟩
    obtain ⟨f', rfl⟩ : ∃ f', f = f' + 1 := ⟨f - 1, by omega⟩
    have hvalid : (Iterator.mk es (some 0) st).Valid = true := by
      simp only [Iterator.Valid]
      exact decide_eq_true hn
    have hval : (Iterator.mk es (some 0) st).value = (es.getD 0 ([], [])).2 := rfl
    have hprev : (Iterator.mk es (some 0) st).Prev = ⟨es, none, st⟩ := rfl
    have hinv : (Iterator.mk es none st).Valid = false := rfl
    by_cases hv : v = (es.getD 0 ([], [])).2
    · left
      refine ⟨0, i, le_refl _, ?_, hv.symm, ?_⟩
      · rw [set_loop_step, if_pos hvalid, hval, if_pos hv]
      · intro j' h1 h2
        omega
    · right
      refine ⟨(i + 1) % 2 ^ 64, ?_, ?_⟩
      · rw [set_loop_step, if_pos hvalid, hval, if_neg hv, hprev, set_loop_step, hinv]
        simp
      · intro j hj
        have : j = 0 := by omega
        subst this
        exact fun h => hv h.symm
  | succ m ih =>
    intro fuel i hn hfuel
    obtain ⟨f, rfl⟩ : ∃ f, fuel = f + 1 := ⟨fuel - 1, by omega⟩
    have hvalid : (Iterator.mk es (some (m + 1)) st).Valid = true := by
      simp only [Iterator.Valid]
      exact decide_eq_true hn
    have hval : (Iterator.mk es (some (m + 1)) st).value
        = (es.getD (m + 1) ([], [])).2 := rfl
    have hprev : (Iterator.mk es (some (m + 1)) st).Prev = ⟨es, some m, st⟩ := rfl
    by_cases hv : v = (es.getD (m + 1) ([], [])).2
    · left
      refine ⟨m + 1, i, le_refl _, ?_, hv.symm, ?_⟩
      · rw [set_loop_step, if_pos hvalid, hval, if_pos hv]
      · intro j' h1 h2
        omega
    · have hstep : set_loop v (f + 1) ⟨es, some (m + 1), st⟩ i
          = set_loop v f ⟨es, some m, st⟩ ((i + 1) % 2 ^ 64) := by
        rw [set_loop_step, if_pos hvalid, hval, if_neg hv, hprev]
      rcases ih f ((i + 1) % 2 ^ 64) (by omega) (by omega) with
        ⟨j, i', hj, hloop, hjv, hafter⟩ | ⟨i', hloop, hnone⟩
      · left
        refine ⟨j, i', by omega, by rw [hstep, hloop], hjv, ?_⟩
        intro j' h1 h2
        by_cases hj' : j' = m + 1
        · subst hj'
          exact fun h => hv h.symm
        · exact hafter j' h1 (by omega)
      · right
        refine ⟨i', by rw [hstep, hloop], ?_⟩
        intro j hj
        by_cases hj' : j = m + 1
        · subst hj'
          exact fun h => hv h.symm
        · exact hnone j (by omega)

/-- The whole scan of `lvldb_database_set` over the contents `es`: from `SeekToLast()`
it ends on the last entry whose value is `v`, or finds none and ends invalid. -/
theorem set_scan (v : Bytes) (es : Entries) (st : Status) (fuel : Nat)
    (hfuel : es.length < fuel) :
    (∃ j i', j < es.length ∧
      set_loop v fuel (Iterator.mk es none st).SeekToLast 1
        = some (true, ⟨es, some j, st⟩, i') ∧
      (es.getD j ([], [])).2 = v ∧
      ∀ j', j < j' → j' < es.length → (es.getD j' ([], [])).2 ≠ v) ∨
    (∃ i', set_loop v fuel (Iterator.mk es none st).SeekToLast 1
        = some (false, ⟨es, none, st⟩, i') ∧
      ∀ e ∈ es, e.2 ≠ v) := by
  by_cases hlen : es.length = 0
  · right
    have hes : es = [] := List.length_eq_zero.mp hlen
    subst hes
    obtain ⟨f, rfl⟩ : ∃ f, fuel = f + 1 := ⟨fuel - 1, by omega⟩
    refine ⟨1, ?_, by simp⟩
    rw [set_loop_step]
    rfl
  · have hseek : (Iterator.mk es none st).SeekToLast = ⟨es, some (es.length - 1), st⟩ := by
      simp [Iterator.SeekToLast, hlen]
    rw [hseek]
    rcases set_loop_spec v es st (es.length - 1) fuel 1 (by omega) (by omega) with
      ⟨j, i', hj, hloop, hjv, hafter⟩ | ⟨i', hloop, hnone⟩
    · left
      exact ⟨j, i', by omega, hloop, hjv, fun j' h1 h2 => hafter j' h1 (by omega)⟩
    · right
      refine ⟨i', hloop, ?_⟩
      intro e he
      obtain ⟨j, hj, rfl⟩ := List.getElem_of_mem he
      have := hnone j (by omega)
      rwa [List.getD_eq_getElem es ([], []) hj] at this

/-- Outcome of `lvldb_database_set` on a working store, reading the latest state, when some entry
has the value: nothing is written and nothing is returned. -/
theorem set_found (NDEBUG : Bool) (fuel : Nat) (L : lua_State) (H : Heap) (p : Nat)
    (es : Entries) (v : Bytes) (ro : ReadOptions)
    (hdb : check_database L 1 = Except.ok p)
    (hv : lua_to_slice L 2 = Except.ok v)
    (hr : lvldb_ropt L 3 H = Except.ok ro)
    (hsnap : ro.snapshot = none)
    (hH : H.get p = some (Obj.db ⟨es, Status.OK⟩))
    (hfuel : es.length < fuel)
    (hex : ∃ e ∈ es, e.2 = v) :
    lvldb_database_set NDEBUG fuel L H = some (Outcome.ret 0 L H) := by
  have hit : (DB.NewIterator ⟨es, Status.OK⟩ ro) = Iterator.mk es none Status.OK := by
    simp [DB.NewIterator, Status.ok, DB.view, hsnap]
  rcases set_scan v es Status.OK fuel hfuel with
    ⟨j, i', _, hloop, _, _⟩ | ⟨i', _, hnone⟩
  · simp [lvldb_database_set, hdb, hv, hr, hH, bind, Except.bind, pure, Except.pure, hit,
      hloop, c_assert, Iterator.status, Status.ok]
  · obtain ⟨e, he, hev⟩ := hex
    exact absurd hev (hnone e he)

/-- Outcome of `lvldb_database_set` on a working store, reading the latest state, when no entry
has the value: the value is put under the key `0` and nothing is returned. -/
theorem set_not_found (NDEBUG : Bool) (fuel : Nat) (L : lua_State) (H : Heap) (p : Nat)
    (es : Entries) (v : Bytes) (ro : ReadOptions)
    (hdb : check_database L 1 = Except.ok p)
    (hv : lua_to_slice L 2 = Except.ok v)
    (hr : lvldb_ropt L 3 H = Except.ok ro)
    (hsnap : ro.snapshot = none)
    (hH : H.get p = some (Obj.db ⟨es, Status.OK⟩))
    (hfuel : es.length < fuel)
    (hno : ∀ e ∈ es, e.2 ≠ v) :
    lvldb_database_set NDEBUG fuel L H
      = some (Outcome.ret 0 L (H.set p (Obj.db ⟨es.insert (lit "0") v, Status.OK⟩))) := by
  have hit : (DB.NewIterator ⟨es, Status.OK⟩ ro) = Iterator.mk es none Status.OK := by
    simp [DB.NewIterator, Status.ok, DB.view, hsnap]
  rcases set_scan v es Status.OK fuel hfuel with
    ⟨j, i', hj, _, hjv, _⟩ | ⟨i', hloop, _⟩
  · rw [List.getD_eq_getElem es ([], []) hj] at hjv
    exact absurd hjv (hno _ (List.getElem_mem _))
  · simp [lvldb_database_set, hdb, hv, hr, hH, bind, Except.bind, pure, Except.pure, hit,
      hloop, c_assert, Iterator.status, Status.ok, DB.Put]

theorem Entries.mem_insert (es : Entries) (k v : Bytes) : (k, v) ∈ es.insert k v := by
  induction es with
  | nil => simp [Entries.insert]
  | cons e es ih =>
    obtain ⟨k', v'⟩ := e
    by_cases h : k' = k
    · simp [Entries.insert, h]
    · by_cases h2 : bytesLt k k' = true
      · simp [Entries.insert, h, h2]
      · simp [Entries.insert, h, h2, ih]

theorem Entries.length_insert_le (es : Entries) (k v : Bytes) :
    (es.insert k v).length ≤ es.length + 1 := by
  induction es with
  | nil => simp [Entries.insert]
  | cons e es ih =>
    obtain ⟨k', v'⟩ := e
    by_cases h : k' = k
    · simp [Entries.insert, h]
    · by_cases h2 : bytesLt k k' = true
      · simp [Entries.insert, h, h2]
      · simp [Entries.insert, h, h2]
        omega

/-- C10. `lvldb_database_set` is idempotent: on a store whose Put succeeds, a second
`set(v)` right after the first leaves the heap, and so the store, as the first call
left it, because after the first call some entry has the value `v`; both calls return
no value. -/
theorem set_idempotent (NDEBUG : Bool) (fuel₁ fuel₂ : Nat) (L : lua_State) (H : Heap)
    (p : Nat) (d : DB) (v : Bytes) (ro : ReadOptions)
    (hdb : check_database L 1 = Except.ok p)
    (hv : lua_to_slice L 2 = Except.ok v)
    (hr : lvldb_ropt L 3 H = Except.ok ro)
    (hsnap : ro.snapshot = none)
    (hH : H.get p = some (Obj.db d))
    (hput : (d.Put {} (lit "0") v).1 = Status.OK)
    (hfuel₁ : d.entries.length < fuel₁)
    (hfuel₂ : d.entries.length + 1 < fuel₂) :
    ∃ o₁ o₂, lvldb_database_set NDEBUG fuel₁ L H = some o₁ ∧
      lvldb_database_set NDEBUG fuel₂ L o₁.heap = some o₂ ∧
      o₂.heap = o₁.heap ∧
      o₁.values = some [] ∧ o₂.values = some [] ∧
      (∃ d₁, o₁.heap.get p = some (Obj.db d₁) ∧ ∃ e ∈ d₁.entries, e.2 = v) := by
  have hwork : d.fault = Status.OK := (DB.Put_accepts d {} (lit "0") v).mp hput
  obtain ⟨es, f⟩ := d
  simp only at hwork
  subst hwork
  simp only at hfuel₁ hfuel₂
  have hvals : ∀ H', (Outcome.ret 0 L H').values = some [] := by
    intro H'
    simp [Outcome.ret, Outcome.values]
  by_cases hex : ∃ e ∈ es, e.2 = v
  · refine ⟨Outcome.ret 0 L H, Outcome.ret 0 L H,
      set_found NDEBUG fuel₁ L H p es v ro hdb hv hr hsnap hH hfuel₁ hex,
      set_found NDEBUG fuel₂ L H p es v ro hdb hv hr hsnap hH (by omega) hex,
      rfl, hvals H, hvals H, ⟨⟨es, Status.OK⟩, hH, hex⟩⟩
  · have hno : ∀ e ∈ es, e.2 ≠ v := fun e he hev => hex ⟨e, he, hev⟩
    have hH₁ : (H.set p (Obj.db ⟨es.insert (lit "0") v, Status.OK⟩)).get p
        = some (Obj.db ⟨es.insert (lit "0") v, Status.OK⟩) := Heap.get_set_same H p _ _ hH
    have hr₁ : lvldb_ropt L 3 (H.set p (Obj.db ⟨es.insert (lit "0") v, Status.OK⟩))
        = Except.ok ro := by
      rw [lvldb_ropt_set_db L 3 H p ⟨es, Status.OK⟩ _ hH, hr]
    have hex₁ : ∃ e ∈ es.insert (lit "0") v, e.2 = v :=
      ⟨(lit "0", v), Entries.mem_insert es _ v, rfl⟩
    have hlen := Entries.length_insert_le es (lit "0") v
    refine ⟨_, Outcome.ret 0 L (H.set p (Obj.db ⟨es.insert (lit "0") v, Status.OK⟩)),
      set_not_found NDEBUG fuel₁ L H p es v ro hdb hv hr hsnap hH hfuel₁ hno,
      set_found NDEBUG fuel₂ L _ p _ v ro hdb hv hr₁ hsnap hH₁ (by omega) hex₁,
      rfl, hvals _, hvals _, ⟨_, hH₁, hex₁⟩⟩

/-- Instance of C10 on the sample store with a value no entry holds. -/
theorem set_idempotent_witness :
    ∃ o₁ o₂,
      lvldb_database_set false 3 (call 1 [LuaValue.string (lit "zz")]) sampleHeap = some o₁ ∧
      lvldb_database_set false 4 (call 1 [LuaValue.string (lit "zz")]) o₁.heap = some o₂ ∧
      o₂.heap = o₁.heap :=
  have h := set_idempotent false 3 4 (call 1 [LuaValue.string (lit "zz")]) sampleHeap 1
    { entries := [(lit "a", lit "1"), (lit "b", lit "2")] } (lit "zz") {}
    (by decide) (by decide) (by decide) (by decide) (by decide) (by decide) (by decide)
    (by decide)
  h.elim fun o₁ h₁ => h₁.elim fun o₂ h₂ => ⟨o₁, o₂, h₂.1, h₂.2.1, h₂.2.2.1⟩

end LuaLevelDB
